import Mathlib

/-!
Shallow embedding of the disk-usage status widget of jupyter-resource-usage
(packages/labextension/src/diskUsage.tsx) and of the unit-conversion helpers
it imports, together with theorems settling the specification claims about
the polling / derivation state machine.

Numbers are embedded as rationals: every byte count and every derived value
appearing in the claims is produced by exact divisions of integer inputs.
-/

namespace DiskUsage

/-- The ordered memory unit tags used by the widget (type MemoryUnit of
format.ts, re-exported to diskUsage.tsx). -/
inductive MemoryUnit
  | B
  | KB
  | MB
  | GB
  | TB
  | PB
  deriving DecidableEq, Repr

/-- Modelled from the spec: the byte-multiplier table MEMORY_UNIT_LIMITS of
format.ts is imported by diskUsage.tsx but its source is not provided. Spec
sections 3 and 4.1 fix an ordered unit table of fixed byte multipliers and
section 8 fixes the GB multiplier as 1e9, so the table is decimal. -/
def MEMORY_UNIT_LIMITS : MemoryUnit → ℚ
  | .B => 1
  | .KB => 1000
  | .MB => 1000000
  | .GB => 1000000000
  | .TB => 1000000000000
  | .PB => 1000000000000000

/-- Position of a unit in the total order by multiplier (spec section 3). -/
def unitIndex : MemoryUnit → ℕ
  | .B => 0
  | .KB => 1
  | .MB => 2
  | .GB => 3
  | .TB => 4
  | .PB => 5

/-- Modelled from the spec: convertToLargestUnit of format.ts is imported by
diskUsage.tsx but its source is not provided. Spec section 4.1: iterate the
unit table from largest multiplier to smallest, pick the first unit whose
multiplier is at most the byte count, fall back to the smallest unit if none
qualifies, and return the byte count divided by the chosen multiplier. -/
def convertToLargestUnit (numBytes : ℚ) : ℚ × MemoryUnit :=
  if MEMORY_UNIT_LIMITS .PB ≤ numBytes then (numBytes / MEMORY_UNIT_LIMITS .PB, .PB)
  else if MEMORY_UNIT_LIMITS .TB ≤ numBytes then (numBytes / MEMORY_UNIT_LIMITS .TB, .TB)
  else if MEMORY_UNIT_LIMITS .GB ≤ numBytes then (numBytes / MEMORY_UNIT_LIMITS .GB, .GB)
  else if MEMORY_UNIT_LIMITS .MB ≤ numBytes then (numBytes / MEMORY_UNIT_LIMITS .MB, .MB)
  else if MEMORY_UNIT_LIMITS .KB ≤ numBytes then (numBytes / MEMORY_UNIT_LIMITS .KB, .KB)
  else (numBytes / MEMORY_UNIT_LIMITS .B, .B)

/-- A metrics response object as it reaches _updateMetricsValues. The TS
interface Private.IMetricRequestResult declares both fields, but the handler
guards with hasOwnProperty, so a runtime object may lack either field; an
absent field is `none`. -/
structure IMetricRequestResult where
  disk_used : Option ℚ
  disk_total : Option ℚ
  deriving DecidableEq, Repr

/-- The private fields of DiskUsage.Model read and written by the ticked
handler (diskUsage.tsx lines 194-199). -/
structure ModelState where
  diskUsed : ℚ
  diskTotal : Option ℚ
  metricsAvailable : Bool
  units : MemoryUnit
  warn : Bool
  deriving DecidableEq, Repr

/-- Initial field values of a fresh Model (diskUsage.tsx lines 194-199). -/
def initialState : ModelState :=
  { diskUsed := 0, diskTotal := none, metricsAvailable := false,
    units := .B, warn := false }

/-- Accessor DiskUsage.Model.usageWarning (diskUsage.tsx lines 142-144). -/
def usageWarning (s : ModelState) : Bool := s.warn

/-- DiskUsage.Model._updateMetricsValues (diskUsage.tsx lines 157-192):
returns the updated fields together with whether stateChanged was emitted.
The first branch mirrors `value === null || !value.hasOwnProperty('disk_used')`;
the diskTotal assignment mirrors the JS truthiness test `diskTotal ? ... : null`
(a number is falsy exactly when it is zero). -/
def updateMetricsValues (s : ModelState) (value : Option IMetricRequestResult) :
    ModelState × Bool :=
  let oldMetricsAvailable := s.metricsAvailable
  let oldDiskUsed := s.diskUsed
  let oldDiskTotal := s.diskTotal
  let oldUnits := s.units
  let s' : ModelState :=
    match value with
    | none =>
      { s with metricsAvailable := false, diskUsed := 0, diskTotal := none,
               units := .B, warn := false }
    | some v =>
      match v.disk_used with
      | none =>
        { s with metricsAvailable := false, diskUsed := 0, diskTotal := none,
                 units := .B, warn := false }
      | some diskUsedBytes =>
        let converted := convertToLargestUnit diskUsedBytes
        { s with metricsAvailable := true, diskUsed := converted.1,
                 units := converted.2,
                 diskTotal :=
                   match v.disk_total with
                   | some t =>
                     if t ≠ 0 then some (t / MEMORY_UNIT_LIMITS converted.2) else none
                   | none => none }
  (s', decide (s'.diskUsed ≠ oldDiskUsed ∨ s'.units ≠ oldUnits ∨
               s'.diskTotal ≠ oldDiskTotal ∨ s'.metricsAvailable ≠ oldMetricsAvailable))

/-- A Poll tick as seen by the connected handler: the resolved phase carries
the payload (possibly null), the rejected phase carries an error. Phases other
than resolved and rejected leave both branches of the handler untaken. -/
inductive TickPhase
  | resolved (payload : Option IMetricRequestResult)
  | rejected
  deriving DecidableEq

/-- The poll.ticked handler installed in the Model constructor
(diskUsage.tsx lines 90-108). -/
def tickedHandler (s : ModelState) (t : TickPhase) : ModelState × Bool :=
  match t with
  | .resolved payload => updateMetricsValues s payload
  | .rejected =>
    let oldMetricsAvailable := s.metricsAvailable
    let s' : ModelState :=
      { s with metricsAvailable := false, diskUsed := 0, diskTotal := none,
               units := .B }
    (s', oldMetricsAvailable)

/-- Outcome of the external transport underlying Private.factory: the awaited
ServerConnection.makeRequest either fails at the network level (the promise
rejects) or yields an HTTP response carrying a status code and a body, which
either parses to a metrics object or is malformed (none). -/
inductive TransportOutcome
  | networkFailure (e : ℕ)
  | httpResponse (status : ℕ) (jsonBody : Option IMetricRequestResult)
  deriving DecidableEq, Repr

/-- Failure outcomes of Private.factory: the propagated network rejection or
a JSON parse failure from response.json(). -/
inductive FetchError
  | networkError (e : ℕ)
  | parseError
  deriving DecidableEq, Repr

/-- Private.factory (diskUsage.tsx lines 251-260): awaits the request, then
awaits response.json(); each await propagates its failure unchanged, and the
response status is never inspected. -/
def factory : TransportOutcome → Except FetchError IMetricRequestResult
  | .networkFailure e => .error (.networkError e)
  | .httpResponse _ body =>
    match body with
    | none => .error .parseError
    | some j => .ok j

/-- Whether an HTTP status code is in the 2xx success range. -/
def is2xx (status : ℕ) : Bool := 200 ≤ status && status < 300

/-- The Model states produced by the constructor and any sequence of poll
ticks. -/
inductive Reachable : ModelState → Prop
  | init : Reachable initialState
  | step (s : ModelState) (t : TickPhase) :
      Reachable s → Reachable (tickedHandler s t).1

/-- Spec section 3 invariant: an unavailable snapshot is the zero snapshot. -/
def SnapshotInv (s : ModelState) : Prop :=
  s.metricsAvailable = false →
    s.diskUsed = 0 ∧ s.diskTotal = none ∧ s.units = MemoryUnit.B

/-- A concrete available Model state used as a test point. -/
def availState : ModelState :=
  { diskUsed := 5, diskTotal := some 20, metricsAvailable := true,
    units := MemoryUnit.GB, warn := false }

theorem convertToLargestUnit_fst (b : ℚ) :
    (convertToLargestUnit b).1 = b / MEMORY_UNIT_LIMITS (convertToLargestUnit b).2 := by
  unfold convertToLargestUnit
  split_ifs <;> rfl

theorem convertToLargestUnit_ge_one (b : ℚ)
    (h : (convertToLargestUnit b).2 ≠ MemoryUnit.B) :
    1 ≤ (convertToLargestUnit b).1 := by
  unfold convertToLargestUnit at h ⊢
  simp only [MEMORY_UNIT_LIMITS] at h ⊢
  split_ifs at h ⊢ with h1 h2 h3 h4 h5 <;>
    simp only at h ⊢ <;>
    first
      | exact absurd rfl h
      | · rw [one_le_div (by norm_num)]
          linarith

theorem convertToLargestUnit_maximal (b : ℚ) (u : MemoryUnit)
    (hu : unitIndex (convertToLargestUnit b).2 < unitIndex u) :
    b / MEMORY_UNIT_LIMITS u < 1 := by
  unfold convertToLargestUnit at hu
  split_ifs at hu with h1 h2 h3 h4 h5 <;>
    simp only [MEMORY_UNIT_LIMITS] at * <;>
    cases u <;>
    simp [unitIndex] at hu <;>
    simp only [MEMORY_UNIT_LIMITS] <;>
    rw [div_lt_one (by norm_num)] <;>
    linarith

theorem convertToLargestUnit_zero : convertToLargestUnit 0 = (0, MemoryUnit.B) := by
  unfold convertToLargestUnit
  norm_num [MEMORY_UNIT_LIMITS]

/-- Claim C6: for every non-negative byte count b, convertToLargestUnit b is a
pair (v, u) with v = b divided by the multiplier of u, v at least 1 unless u
is the smallest unit, no strictly larger unit scaling b to at least 1, and
convertToLargestUnit 0 = (0, smallest unit). -/
theorem convertToLargestUnit_spec (b : ℚ) (_hb : 0 ≤ b) :
    (convertToLargestUnit b).1 = b / MEMORY_UNIT_LIMITS (convertToLargestUnit b).2 ∧
    ((convertToLargestUnit b).2 ≠ MemoryUnit.B → 1 ≤ (convertToLargestUnit b).1) ∧
    (∀ u : MemoryUnit, unitIndex (convertToLargestUnit b).2 < unitIndex u →
      b / MEMORY_UNIT_LIMITS u < 1) ∧
    (b = 0 → convertToLargestUnit b = (0, MemoryUnit.B)) :=
  ⟨convertToLargestUnit_fst b,
   convertToLargestUnit_ge_one b,
   fun u hu => convertToLargestUnit_maximal b u hu,
   fun h0 => h0 ▸ convertToLargestUnit_zero⟩

theorem convertToLargestUnit_spec_witness :
    (0 : ℚ) ≤ 5000000000 ∧
    ((convertToLargestUnit 5000000000).1 =
        5000000000 / MEMORY_UNIT_LIMITS (convertToLargestUnit 5000000000).2 ∧
      ((convertToLargestUnit 5000000000).2 ≠ MemoryUnit.B →
        1 ≤ (convertToLargestUnit 5000000000).1) ∧
      (∀ u : MemoryUnit, unitIndex (convertToLargestUnit 5000000000).2 < unitIndex u →
        (5000000000 : ℚ) / MEMORY_UNIT_LIMITS u < 1) ∧
      ((5000000000 : ℚ) = 0 → convertToLargestUnit 5000000000 = (0, MemoryUnit.B))) :=
  ⟨by norm_num, convertToLargestUnit_spec 5000000000 (by norm_num)⟩

/-- Claim C1: on a resolved tick the Model emits a change notification exactly
when one of the derived fields diskUsed, units, diskTotal, metricsAvailable
differs field-wise from the held snapshot, and processing the same successful
payload twice in a row produces no second notification. -/
theorem resolved_emit_iff_changed (s : ModelState) (p : Option IMetricRequestResult) :
    ((updateMetricsValues s p).2 = true ↔
      ¬((updateMetricsValues s p).1.diskUsed = s.diskUsed ∧
        (updateMetricsValues s p).1.units = s.units ∧
        (updateMetricsValues s p).1.diskTotal = s.diskTotal ∧
        (updateMetricsValues s p).1.metricsAvailable = s.metricsAvailable)) ∧
    (updateMetricsValues (updateMetricsValues s p).1 p).2 = false := by
  constructor
  · simp only [updateMetricsValues, decide_eq_true_eq]
    tauto
  · rcases p with _ | v
    · simp [updateMetricsValues]
    · rcases hv : v.disk_used with _ | du
      · simp [updateMetricsValues, hv]
      · rcases ht : v.disk_total with _ | t
        · simp [updateMetricsValues, hv, ht]
        · by_cases h0 : t = 0 <;> simp [updateMetricsValues, hv, ht, h0]

/-- Claim C5: a resolved tick whose payload is null or lacks a disk_used field
puts the Model in the unavailable state with warn false, for any prior
state. -/
theorem resolved_invalid_payload (s : ModelState) (v : Option IMetricRequestResult)
    (h : v.bind IMetricRequestResult.disk_used = none) :
    (updateMetricsValues s v).1 =
      { diskUsed := 0, diskTotal := none, metricsAvailable := false,
        units := MemoryUnit.B, warn := false } := by
  rcases v with _ | v
  · simp [updateMetricsValues]
  · rcases hv : v.disk_used with _ | du
    · simp [updateMetricsValues, hv]
    · simp [hv] at h

theorem resolved_invalid_payload_witness :
    (none : Option IMetricRequestResult).bind IMetricRequestResult.disk_used = none ∧
    (updateMetricsValues availState none).1 =
      { diskUsed := 0, diskTotal := none, metricsAvailable := false,
        units := MemoryUnit.B, warn := false } :=
  ⟨rfl, resolved_invalid_payload availState none rfl⟩

/-- Claim C3: a rejected tick puts the snapshot in the unavailable state with
warn remaining false, and emits a change notification exactly when the Model
was previously available. -/
theorem rejected_tick (s : ModelState) (h : s.warn = false) :
    (tickedHandler s TickPhase.rejected).1.diskUsed = 0 ∧
    (tickedHandler s TickPhase.rejected).1.diskTotal = none ∧
    (tickedHandler s TickPhase.rejected).1.units = MemoryUnit.B ∧
    (tickedHandler s TickPhase.rejected).1.metricsAvailable = false ∧
    (tickedHandler s TickPhase.rejected).1.warn = false ∧
    ((tickedHandler s TickPhase.rejected).2 = true ↔ s.metricsAvailable = true) := by
  simp [tickedHandler, h]

theorem rejected_tick_witness :
    availState.warn = false ∧
    ((tickedHandler availState TickPhase.rejected).1.diskUsed = 0 ∧
      (tickedHandler availState TickPhase.rejected).1.diskTotal = none ∧
      (tickedHandler availState TickPhase.rejected).1.units = MemoryUnit.B ∧
      (tickedHandler availState TickPhase.rejected).1.metricsAvailable = false ∧
      (tickedHandler availState TickPhase.rejected).1.warn = false ∧
      ((tickedHandler availState TickPhase.rejected).2 = true ↔
        availState.metricsAvailable = true)) :=
  ⟨rfl, rejected_tick availState rfl⟩

/-- Claim C4: the invariant "unavailable implies the zero snapshot" holds in
the initial state and is preserved by every poll-tick transition. -/
theorem snapshot_invariant :
    SnapshotInv initialState ∧
    ∀ (s : ModelState) (t : TickPhase),
      SnapshotInv s → SnapshotInv (tickedHandler s t).1 := by
  constructor
  · intro _
    exact ⟨rfl, rfl, rfl⟩
  · intro s t _
    rcases t with p | _
    · rcases p with _ | v
      · intro _
        simp [tickedHandler, updateMetricsValues]
      · rcases hv : v.disk_used with _ | du
        · intro _
          simp [tickedHandler, updateMetricsValues, hv]
        · intro hfalse
          simp [tickedHandler, updateMetricsValues, hv] at hfalse
    · intro _
      simp [tickedHandler]

theorem snapshot_invariant_witness :
    SnapshotInv initialState ∧
    SnapshotInv (tickedHandler initialState TickPhase.rejected).1 :=
  ⟨snapshot_invariant.1,
   snapshot_invariant.2 initialState TickPhase.rejected snapshot_invariant.1⟩

/-- Claim C9: the usageWarning accessor returns false in every reachable state
of the Model. -/
theorem usageWarning_false (s : ModelState) (h : Reachable s) :
    usageWarning s = false := by
  induction h with
  | init => rfl
  | step s t _ ih =>
    rcases t with p | _
    · rcases p with _ | v
      · simp [tickedHandler, updateMetricsValues, usageWarning]
      · rcases hv : v.disk_used with _ | du
        · simp [tickedHandler, updateMetricsValues, usageWarning, hv]
        · simpa [tickedHandler, updateMetricsValues, usageWarning, hv] using ih
    · simpa [tickedHandler, usageWarning] using ih

theorem usageWarning_false_witness :
    Reachable initialState ∧ usageWarning initialState = false :=
  ⟨Reachable.init, usageWarning_false initialState Reachable.init⟩

/-- Claim C10: a resolved payload with disk_used present and disk_total equal
to 0 yields diskTotal = none (the truthiness test treats 0 as absent) while
metricsAvailable is still set to true. -/
theorem disk_total_zero_gives_none (s : ModelState) (du : ℚ) :
    (updateMetricsValues s
      (some { disk_used := some du, disk_total := some 0 })).1.diskTotal = none ∧
    (updateMetricsValues s
      (some { disk_used := some du, disk_total := some 0 })).1.metricsAvailable = true := by
  simp [updateMetricsValues]

/-- Claim C2 as stated predicts that a present disk_total of 0 yields
diskTotal = some (0 / multiplier); the code yields none for it, because the
presence test on disk_total is a JS truthiness test. -/
theorem resolved_valid_payload_counterexample :
    (updateMetricsValues initialState
      (some { disk_used := some 512, disk_total := some 0 })).1.diskTotal ≠
      some (0 / MEMORY_UNIT_LIMITS (convertToLargestUnit 512).2) := by
  decide

/-- Claim C2 (amended): on a resolved tick whose payload has a disk_used
field, the Model sets (diskUsed, units) = convertToLargestUnit disk_used,
sets metricsAvailable to true, and sets diskTotal to disk_total divided by
the multiplier of that unit when disk_total is present and nonzero, and to
absent when disk_total is absent or zero. -/
theorem resolved_valid_payload (s : ModelState) (v : IMetricRequestResult) (du : ℚ)
    (h : v.disk_used = some du) :
    (updateMetricsValues s (some v)).1.diskUsed = (convertToLargestUnit du).1 ∧
    (updateMetricsValues s (some v)).1.units = (convertToLargestUnit du).2 ∧
    (updateMetricsValues s (some v)).1.metricsAvailable = true ∧
    (∀ t : ℚ, v.disk_total = some t → t ≠ 0 →
      (updateMetricsValues s (some v)).1.diskTotal =
        some (t / MEMORY_UNIT_LIMITS (convertToLargestUnit du).2)) ∧
    (v.disk_total = none → (updateMetricsValues s (some v)).1.diskTotal = none) ∧
    (v.disk_total = some 0 → (updateMetricsValues s (some v)).1.diskTotal = none) := by
  refine ⟨?_, ?_, ?_, ?_, ?_, ?_⟩
  · simp [updateMetricsValues, h]
  · simp [updateMetricsValues, h]
  · simp [updateMetricsValues, h]
  · intro t ht ht0
    simp [updateMetricsValues, h, ht, ht0]
  · intro ht
    simp [updateMetricsValues, h, ht]
  · intro ht
    simp [updateMetricsValues, h, ht]

theorem resolved_valid_payload_witness :
    ({ disk_used := some 5000000000, disk_total := some 20000000000 } :
        IMetricRequestResult).disk_used = some 5000000000 ∧
    ((updateMetricsValues initialState
        (some { disk_used := some 5000000000, disk_total := some 20000000000 })).1.diskUsed =
        (convertToLargestUnit 5000000000).1 ∧
      (updateMetricsValues initialState
        (some { disk_used := some 5000000000, disk_total := some 20000000000 })).1.units =
        (convertToLargestUnit 5000000000).2 ∧
      (updateMetricsValues initialState
        (some { disk_used := some 5000000000, disk_total := some 20000000000 })).1.metricsAvailable =
        true ∧
      (∀ t : ℚ,
        ({ disk_used := some 5000000000, disk_total := some 20000000000 } :
          IMetricRequestResult).disk_total = some t → t ≠ 0 →
        (updateMetricsValues initialState
          (some { disk_used := some 5000000000, disk_total := some 20000000000 })).1.diskTotal =
          some (t / MEMORY_UNIT_LIMITS (convertToLargestUnit 5000000000).2)) ∧
      (({ disk_used := some 5000000000, disk_total := some 20000000000 } :
          IMetricRequestResult).disk_total = none →
        (updateMetricsValues initialState
          (some { disk_used := some 5000000000, disk_total := some 20000000000 })).1.diskTotal =
          none) ∧
      (({ disk_used := some 5000000000, disk_total := some 20000000000 } :
          IMetricRequestResult).disk_total = some 0 →
        (updateMetricsValues initialState
          (some { disk_used := some 5000000000, disk_total := some 20000000000 })).1.diskTotal =
          none)) :=
  ⟨rfl, resolved_valid_payload initialState
    { disk_used := some 5000000000, disk_total := some 20000000000 } 5000000000 rfl⟩

/-- Claim C7 as stated predicts a rejection for every non-2xx response; the
factory never inspects the status, so a 404 whose body parses as JSON
resolves with that body. -/
theorem factory_counterexample :
    is2xx 404 = false ∧
    factory (TransportOutcome.httpResponse 404
        (some { disk_used := some 1, disk_total := some 2 })) =
      Except.ok { disk_used := some 1, disk_total := some 2 } :=
  ⟨rfl, rfl⟩

/-- Claim C7 (amended): the factory rejects exactly when the transport fails
at the network level or the body is malformed JSON; the HTTP status is never
inspected, and a network error is propagated verbatim without retrying. -/
theorem factory_reject_iff (t : TransportOutcome) :
    ((∃ err, factory t = Except.error err) ↔
      (∃ e, t = TransportOutcome.networkFailure e) ∨
      (∃ st, t = TransportOutcome.httpResponse st none)) ∧
    (∀ e, factory (TransportOutcome.networkFailure e) =
      Except.error (FetchError.networkError e)) := by
  constructor
  · rcases t with e | ⟨st, body⟩
    · simp [factory]
    · rcases body with _ | j <;> simp [factory]
  · intro e
    rfl

end DiskUsage
